import Mathlib

/-!
Verification development for the OpenCLInfo repository: a shallow embedding
of the property-tree construction and serialization engine (lib/clInfo.cpp,
cli main, and the standalone clDiag.cpp variant), together with theorems
settling the specification claims about it.

Conventions of the embedding:
* C/C++ linked lists (`cliValue::next`, `cliProperty::next`, `cliNode::next`)
  become Lean `List`s, with the null pointer corresponding to `[]`.
* NUL-terminated byte buffers become `List Char` (the characters before the
  first NUL; the C loops never read past it).
* `int` fields become `Int`; unsigned sizes become `Nat`.
* External OpenCL entry points (clGetPlatformIDs, clGetDeviceInfo, ...) are
  modelled as explicit oracle parameters returning either a success payload
  or a numeric failure status, mirroring the two-call size/fill protocol.
-/

namespace OpenCLInfo

/-- The `Version` struct of lib/clInfo.cpp (and identically clDiag.cpp):
two `int` fields, default 0. -/
structure Version where
  major : Int := 0
  minor : Int := 0
deriving DecidableEq

/-- `Version::operator==`: `major == other.major && minor == other.minor`. -/
def Version.eqB (a b : Version) : Bool :=
  a.major == b.major && a.minor == b.minor

/-- `Version::operator!=`: `major != other.major || minor != other.minor`. -/
def Version.neB (a b : Version) : Bool :=
  a.major != b.major || a.minor != b.minor

/-- `Version::operator<`: on differing majors compare majors, else minors. -/
def Version.ltB (a b : Version) : Bool :=
  if a.major != b.major then a.major < b.major else a.minor < b.minor

/-- `Version::operator<=`: on differing majors compare majors strictly,
else compare minors with `<=`. -/
def Version.leB (a b : Version) : Bool :=
  if a.major != b.major then a.major < b.major else a.minor ≤ b.minor

/-- `Version::operator>=`: on differing majors compare majors strictly,
else compare minors with `>=`. -/
def Version.geB (a b : Version) : Bool :=
  if a.major != b.major then a.major > b.major else a.minor ≥ b.minor

/-- `Version::operator>`: on differing majors compare majors, else minors. -/
def Version.gtB (a b : Version) : Bool :=
  if a.major != b.major then a.major > b.major else a.minor > b.minor

/-! ## The tagged value / property / node data model (lib/clInfo.h) -/

/-- `enum cliPropertyType` from lib/clInfo.h. -/
inductive cliPropertyType where
  | CLI_PropertyType_Int64
  | CLI_PropertyType_Bool
  | CLI_PropertyType_String
deriving DecidableEq

/-- `struct cliValue`: a tagged union of int64 / bool / string.  The C union
is untagged and discriminated by the owning property's type; the embedding
tags each payload directly.  The `next` chain becomes a `List cliValue` at
every use site. -/
inductive cliValue where
  | i (v : Int)
  | b (v : Bool)
  | s (v : String)
deriving DecidableEq

/-- `struct cliProperty` from lib/clInfo.h: name, optional hint, type tag and
the (possibly empty) value chain.  A null `value` pointer is `[]`. -/
structure cliProperty where
  value : List cliValue
  name : String
  hint : Option String
  type : cliPropertyType
deriving DecidableEq

/-- `struct cliNode` from lib/clInfo.h: name, optional kind, child chain and
property chain.  The `firstChild`/`next` sibling chains become a `List`. -/
inductive cliNode where
  | mk (name : String) (kind : Option String)
       (firstChild : List cliNode) (firstProperty : List cliProperty)

/-- Projection: `cliNode::name`. -/
def cliNode.name : cliNode → String
  | .mk n _ _ _ => n

/-- Projection: `cliNode::kind`. -/
def cliNode.kind : cliNode → Option String
  | .mk _ k _ _ => k

/-- Projection: `cliNode::firstChild` (the whole child chain). -/
def cliNode.firstChild : cliNode → List cliNode
  | .mk _ _ c _ => c

/-- Projection: `cliNode::firstProperty` (the whole property chain). -/
def cliNode.firstProperty : cliNode → List cliProperty
  | .mk _ _ _ p => p

/-! ## CreateCharList (lib/clInfo.cpp lines 301-339)

The string-list tokenizer.  The C loop runs over the NUL-terminated buffer:
while not at the NUL it takes a run of non-space characters as the token,
and if the run stopped at a space it NUL-terminates the token, advances and
then skips every following space ("Skip all following spaces").  The buffer
becomes a `List Char`, the produced `cliValue` chain a list of tokens. -/

theorem length_dropWhile_le (p : Char → Bool) (l : List Char) :
    (l.dropWhile p).length ≤ l.length := by
  induction l with
  | nil => simp [List.dropWhile]
  | cons c cs ih =>
      by_cases h : p c
      · simpa [List.dropWhile, h] using Nat.le_trans ih (Nat.le_succ _)
      · simp [List.dropWhile, h]

/-- `CreateCharList` of lib/clInfo.cpp: the produced token list.  Each
iteration takes the run of non-space characters as the token (possibly
empty when the current character is a space), emits it, and continues only
when the run stopped at a space — stepping past that space and then
skipping all following spaces ("Skip all following spaces") before the next
iteration. -/
def CreateCharList : List Char → List (List Char)
  | [] => []
  | c :: cs =>
    let tok := (c :: cs).takeWhile (fun x => x ≠ ' ')
    let rest := (c :: cs).dropWhile (fun x => x ≠ ' ')
    tok :: (if rest = [] then []
            else CreateCharList (rest.tail.dropWhile (fun x => x = ' ')))
termination_by l => l.length
decreasing_by
  have h1 : ((c :: cs).dropWhile (fun x => x ≠ ' ')).length ≤ (c :: cs).length :=
    length_dropWhile_le _ _
  have h2 : (((c :: cs).dropWhile (fun x => x ≠ ' ')).tail.dropWhile
      (fun x => x = ' ')).length ≤ ((c :: cs).dropWhile (fun x => x ≠ ' ')).tail.length :=
    length_dropWhile_le _ _
  have h3 : ((c :: cs).dropWhile (fun x => x ≠ ' ')).tail.length =
      ((c :: cs).dropWhile (fun x => x ≠ ' ')).length - 1 := List.length_tail _
  simp only [List.length_cons] at h1 ⊢
  omega

/-- The specification's tokenization: the maximal non-empty runs of
non-space characters, in left-to-right order (used to compare the source
tokenizer against the spec's words). -/
def spaceTokens : List Char → List (List Char)
  | [] => []
  | c :: cs =>
    if c = ' ' then spaceTokens cs
    else (c :: cs.takeWhile (fun x => x ≠ ' ')) :: spaceTokens (cs.dropWhile (fun x => x ≠ ' '))
termination_by l => l.length
decreasing_by
  · simp
  · have := length_dropWhile_le (fun x => x ≠ ' ') cs
    simp only [List.length_cons]
    omega

/-! ## CreateBitfield (lib/clInfo.cpp lines 399-421) -/

/-- `struct BitfieldFetcher`: a (bit-pattern, name) table entry. -/
structure BitfieldFetcher where
  value : Nat
  n : String

/-- `CreateBitfield`: walk the static table in order and emit the name of
every entry whose bit-pattern is fully set in the mask
(`(config & field.value) == field.value`). The produced `cliValue` chain is
a list of the matched names; no match yields `[]` (the null pointer). -/
def CreateBitfield (config : Nat) (fields : List BitfieldFetcher) : List String :=
  match fields with
  | [] => []
  | field :: rest =>
    if config &&& field.value == field.value then
      field.n :: CreateBitfield config rest
    else
      CreateBitfield config rest

/-! ## The device attribute tables of GatherDeviceInfo (lib/clInfo.cpp lines 702-887)

Each `PropertyFetcher` table entry is `{attribute id, stringified name,
decoder, property type, optional hint}`; the attribute id and the name are
the same identifier (the `NIV_VALUESTRING` macro stringifies the id), so the
embedding identifies a table entry by that name.  The decoder/type/hint
components play no role in which attributes get selected for a device and
are modelled where they matter (`GetProperties` below). -/

/-- `infos_CL_shared`: the baseline table queried for every device. -/
def infos_CL_shared : List String := [
  "CL_DEVICE_ADDRESS_BITS",
  "CL_DEVICE_AVAILABLE",
  "CL_DEVICE_COMPILER_AVAILABLE",
  "CL_DEVICE_DOUBLE_FP_CONFIG",
  "CL_DEVICE_ENDIAN_LITTLE",
  "CL_DEVICE_ERROR_CORRECTION_SUPPORT",
  "CL_DEVICE_EXECUTION_CAPABILITIES",
  "CL_DEVICE_EXTENSIONS",
  "CL_DEVICE_GLOBAL_MEM_CACHE_SIZE",
  "CL_DEVICE_GLOBAL_MEM_CACHE_TYPE",
  "CL_DEVICE_GLOBAL_MEM_CACHELINE_SIZE",
  "CL_DEVICE_GLOBAL_MEM_SIZE",
  "CL_DEVICE_IMAGE2D_MAX_HEIGHT",
  "CL_DEVICE_IMAGE2D_MAX_WIDTH",
  "CL_DEVICE_IMAGE3D_MAX_DEPTH",
  "CL_DEVICE_IMAGE3D_MAX_HEIGHT",
  "CL_DEVICE_IMAGE3D_MAX_WIDTH",
  "CL_DEVICE_IMAGE_SUPPORT",
  "CL_DEVICE_LOCAL_MEM_SIZE",
  "CL_DEVICE_LOCAL_MEM_TYPE",
  "CL_DEVICE_MAX_CLOCK_FREQUENCY",
  "CL_DEVICE_MAX_COMPUTE_UNITS",
  "CL_DEVICE_MAX_CONSTANT_ARGS",
  "CL_DEVICE_MAX_CONSTANT_BUFFER_SIZE",
  "CL_DEVICE_MAX_MEM_ALLOC_SIZE",
  "CL_DEVICE_MAX_PARAMETER_SIZE",
  "CL_DEVICE_MAX_READ_IMAGE_ARGS",
  "CL_DEVICE_MAX_SAMPLERS",
  "CL_DEVICE_MAX_WORK_GROUP_SIZE",
  "CL_DEVICE_MAX_WORK_ITEM_DIMENSIONS",
  "CL_DEVICE_MAX_WORK_ITEM_SIZES",
  "CL_DEVICE_MAX_WRITE_IMAGE_ARGS",
  "CL_DEVICE_MEM_BASE_ADDR_ALIGN",
  "CL_DEVICE_NAME",
  "CL_DEVICE_OPENCL_C_VERSION",
  "CL_DEVICE_PREFERRED_VECTOR_WIDTH_CHAR",
  "CL_DEVICE_PREFERRED_VECTOR_WIDTH_SHORT",
  "CL_DEVICE_PREFERRED_VECTOR_WIDTH_INT",
  "CL_DEVICE_PREFERRED_VECTOR_WIDTH_LONG",
  "CL_DEVICE_PREFERRED_VECTOR_WIDTH_FLOAT",
  "CL_DEVICE_PREFERRED_VECTOR_WIDTH_DOUBLE",
  "CL_DEVICE_PREFERRED_VECTOR_WIDTH_HALF",
  "CL_DEVICE_PROFILE",
  "CL_DEVICE_PROFILING_TIMER_RESOLUTION",
  "CL_DEVICE_SINGLE_FP_CONFIG",
  "CL_DEVICE_TYPE",
  "CL_DEVICE_VENDOR",
  "CL_DEVICE_VENDOR_ID",
  "CL_DEVICE_VERSION",
  "CL_DRIVER_VERSION"]

/-- `infos_CL_1_0` ("Diff against CL_shared"). -/
def infos_CL_1_0 : List String := [
  "CL_DEVICE_MEM_BASE_ADDR_ALIGN"]

/-- `infos_CL_1_1` ("Diff against CL_shared"). -/
def infos_CL_1_1 : List String := [
  "CL_DEVICE_HOST_UNIFIED_MEMORY",
  "CL_DEVICE_MIN_DATA_TYPE_ALIGN_SIZE",
  "CL_DEVICE_NATIVE_VECTOR_WIDTH_CHAR",
  "CL_DEVICE_NATIVE_VECTOR_WIDTH_SHORT",
  "CL_DEVICE_NATIVE_VECTOR_WIDTH_INT",
  "CL_DEVICE_NATIVE_VECTOR_WIDTH_LONG",
  "CL_DEVICE_NATIVE_VECTOR_WIDTH_FLOAT",
  "CL_DEVICE_NATIVE_VECTOR_WIDTH_DOUBLE",
  "CL_DEVICE_NATIVE_VECTOR_WIDTH_HALF"]

/-- `infos_CL_1_2` ("Diff against CL_shared"). -/
def infos_CL_1_2 : List String := [
  "CL_DEVICE_BUILT_IN_KERNELS",
  "CL_DEVICE_IMAGE_BASE_ADDRESS_ALIGNMENT",
  "CL_DEVICE_IMAGE_MAX_ARRAY_SIZE",
  "CL_DEVICE_IMAGE_MAX_BUFFER_SIZE",
  "CL_DEVICE_IMAGE_PITCH_ALIGNMENT",
  "CL_DEVICE_IMAGE_SUPPORT",
  "CL_DEVICE_LINKER_AVAILABLE",
  "CL_DEVICE_NATIVE_VECTOR_WIDTH_CHAR",
  "CL_DEVICE_NATIVE_VECTOR_WIDTH_SHORT",
  "CL_DEVICE_NATIVE_VECTOR_WIDTH_INT",
  "CL_DEVICE_NATIVE_VECTOR_WIDTH_LONG",
  "CL_DEVICE_NATIVE_VECTOR_WIDTH_FLOAT",
  "CL_DEVICE_NATIVE_VECTOR_WIDTH_DOUBLE",
  "CL_DEVICE_NATIVE_VECTOR_WIDTH_HALF",
  "CL_DEVICE_PARTITION_AFFINITY_DOMAIN",
  "CL_DEVICE_PARTITION_MAX_SUB_DEVICES",
  "CL_DEVICE_PARTITION_PROPERTIES",
  "CL_DEVICE_PARTITION_TYPE",
  "CL_DEVICE_PRINTF_BUFFER_SIZE",
  "CL_DEVICE_QUEUE_PROPERTIES"]

/-- `infos_CL_2_0` ("Diff against CL_shared+CL_1_2"). -/
def infos_CL_2_0 : List String := [
  "CL_DEVICE_GLOBAL_VARIABLE_PREFERRED_TOTAL_SIZE",
  "CL_DEVICE_MAX_GLOBAL_VARIABLE_SIZE",
  "CL_DEVICE_MAX_ON_DEVICE_EVENTS",
  "CL_DEVICE_MAX_ON_DEVICE_QUEUES",
  "CL_DEVICE_MAX_PIPE_ARGS",
  "CL_DEVICE_MAX_READ_WRITE_IMAGE_ARGS",
  "CL_DEVICE_PIPE_MAX_ACTIVE_RESERVATIONS",
  "CL_DEVICE_PIPE_MAX_PACKET_SIZE",
  "CL_DEVICE_PREFERRED_GLOBAL_ATOMIC_ALIGNMENT",
  "CL_DEVICE_PREFERRED_INTEROP_USER_SYNC",
  "CL_DEVICE_PREFERRED_LOCAL_ATOMIC_ALIGNMENT",
  "CL_DEVICE_PREFERRED_PLATFORM_ATOMIC_ALIGNMENT",
  "CL_DEVICE_QUEUE_ON_DEVICE_MAX_SIZE",
  "CL_DEVICE_QUEUE_ON_DEVICE_PREFERRED_SIZE",
  "CL_DEVICE_QUEUE_ON_DEVICE_PROPERTIES",
  "CL_DEVICE_QUEUE_ON_HOST_PROPERTIES",
  "CL_DEVICE_SVM_CAPABILITIES"]

/-- The table selection of `GatherDeviceInfo` (lib/clInfo.cpp lines 852-878):
start from `infos_CL_shared` and append exactly one version-specific diff
table, chosen by the if / else-if chain on the parsed device version —
`== (1,0)`, `== (1,1)`, `== (1,2)`, and for `>= (2,0)` the 1.2 diff followed
by the 2.0 table.  (A version matching none of the arms, e.g. (1,3), gets
the shared table alone.) -/
def propertiesToFetch (version : Version) : List String :=
  infos_CL_shared ++
    (if version.eqB ⟨1, 0⟩ then infos_CL_1_0
     else if version.eqB ⟨1, 1⟩ then infos_CL_1_1
     else if version.eqB ⟨1, 2⟩ then infos_CL_1_2
     else if version.geB ⟨2, 0⟩ then infos_CL_1_2 ++ infos_CL_2_0
     else [])

/-- The comparator of the `std::sort` call in `GatherDeviceInfo`
(lines 881-885): `strcmp (a.n, b.n) < 0`, i.e. byte-wise lexicographic order
on the entry names (all names are ASCII). -/
def nameLt (a b : String) : Bool := decide (a < b)

/-- One insertion step of the sort-by-name modelling. -/
def insertByName (a : String) : List String → List String
  | [] => [a]
  | b :: bs => if nameLt a b then a :: b :: bs else b :: insertByName a bs

/-- The `std::sort` of `propertiesToFetch` by entry name, modelled as an
insertion sort (the sorted order is unique up to the relative order of
entries with equal names, and the only duplicated names in any selected
table are duplicated identical entries). -/
def sortByName : List String → List String
  | [] => []
  | a :: as => insertByName a (sortByName as)

/-- The attribute names queried for a device of the given parsed version, in
the order `GetProperties` receives them: the selected tables, sorted by
name. -/
def fetchOrder (version : Version) : List String :=
  sortByName (propertiesToFetch version)

theorem mem_insertByName (x a : String) (l : List String) :
    x ∈ insertByName a l ↔ x = a ∨ x ∈ l := by
  induction l with
  | nil => simp [insertByName]
  | cons b bs ih =>
      by_cases h : nameLt a b
      · simp [insertByName, h]
      · simp [insertByName, h, ih]
        tauto

theorem mem_sortByName (x : String) (l : List String) :
    x ∈ sortByName l ↔ x ∈ l := by
  induction l with
  | nil => simp [sortByName]
  | cons a as ih => simp [sortByName, mem_insertByName, ih]

/-! ## GetValue and GetProperties (lib/clInfo.cpp lines 560-606)

The external `getInfoFunction` (clGetDeviceInfo / clGetPlatformInfo) is
modelled per attribute as a pair of oracles: the size-discovery call
`getInfoFunction (obj, info, 0, nullptr, &size)` and the fill call
`getInfoFunction (obj, info, size, buffer.data (), nullptr)`.  Each returns
either its payload or a non-`CL_SUCCESS` numeric status.  `NIV_SAFE_CL`
prints a diagnostic to `stderr` and makes the enclosing function return
`nullptr`; printing is not modelled, the early `nullptr` return is. -/

/-- Outcome of one external OpenCL call: the payload on `CL_SUCCESS`,
otherwise the numeric error code. -/
inductive CLResult (α : Type) where
  | success (val : α)
  | error (code : Int)

/-- The behavior of the external query function for one (object, attribute)
pair: the result of the size-discovery call, and the result of the fill call
as a function of the requested size (the filled buffer is a byte list). -/
structure QueryBehavior where
  sizeCall : CLResult Nat
  dataCall : Nat → CLResult (List Nat)

/-- `GetValue` (lib/clInfo.cpp lines 560-576).  Size-discovery failure or
fill failure hit `NIV_SAFE_CL` and return the null value list; a reported
size of 0 returns the null value list; otherwise the buffer is handed to
`createFunction` together with its size. -/
def GetValue (q : QueryBehavior)
    (createFunction : List Nat → Nat → List cliValue) : List cliValue :=
  match q.sizeCall with
  | .error _ => []
  | .success size =>
    if size = 0 then []
    else
      match q.dataCall size with
      | .error _ => []
      | .success buffer => createFunction buffer size

/-- `struct PropertyFetcher` (lib/clInfo.cpp lines 273-292): attribute id,
stringified name, decoder, property type and optional hint.  The attribute
id is kept as a `Nat` key used to look up the query oracle. -/
structure PropertyFetcher where
  info : Nat
  n : String
  cf : List Nat → Nat → List cliValue
  type : cliPropertyType
  h : Option String

/-- The property `GetProperties` builds for one table entry: name, hint and
type from the entry, the value list from `GetValue`. -/
def fetchProperty (f : Nat → QueryBehavior) (entry : PropertyFetcher) : cliProperty :=
  { value := GetValue (f entry.info) entry.cf
    name := entry.n
    hint := entry.h
    type := entry.type }

/-- `GetProperties` (lib/clInfo.cpp lines 579-606): walk to the tail of the
node's existing property chain and append one property per table entry, in
table order.  The tail walk plus per-iteration tail append is the fold
below; `f` is the external query function. -/
def GetProperties (f : Nat → QueryBehavior) (node : cliNode)
    (container : List PropertyFetcher) : cliNode :=
  match node with
  | .mk name kind firstChild firstProperty =>
    .mk name kind firstChild
      (container.foldl (fun acc entry => acc ++ [fetchProperty f entry]) firstProperty)

theorem foldl_append_eq_map {α β : Type} (g : α → β) (l : List α) (init : List β) :
    l.foldl (fun acc e => acc ++ [g e]) init = init ++ l.map g := by
  induction l generalizing init with
  | nil => simp
  | cons e es ih => simp [ih]

/-- The list-level characterization of `GetProperties`: it appends exactly
the fetched properties, in table order, after the existing chain. -/
theorem GetProperties_firstProperty (f : Nat → QueryBehavior) (node : cliNode)
    (container : List PropertyFetcher) :
    (GetProperties f node container).firstProperty =
      node.firstProperty ++ container.map (fetchProperty f) := by
  cases node with
  | mk name kind firstChild firstProperty =>
      simp [GetProperties, cliNode.firstProperty, foldl_append_eq_map]

/-! ## GatherOpenCLInfo and the public document API
(lib/clInfo.cpp lines 902-1033)

`GatherOpenCLInfo` allocates the "Platforms" root, queries the platform
count, and returns `nullptr` when the count query fails (`NIV_SAFE_CL`),
when zero platforms are found, or when the id-list query fails; otherwise it
builds one platform subtree per id.  The per-platform body (lines 918-966:
platform properties, device enumeration, `GatherDeviceInfo`) is abstracted
as the `buildPlatformNodes` parameter — the claims below depend only on the
enumeration guard and on what the function returns. -/

/-- `GatherOpenCLInfo`, parametrized by the two `clGetPlatformIDs` call
outcomes and the per-platform tree builder. -/
def GatherOpenCLInfo (countCall : CLResult Nat)
    (idsCall : Nat → CLResult (List Nat))
    (buildPlatformNodes : List Nat → List cliNode) : Option cliNode :=
  match countCall with
  | .error _ => none
  | .success numPlatforms =>
    if numPlatforms = 0 then none
    else
      match idsCall numPlatforms with
      | .error _ => none
      | .success platformIds =>
        some (.mk "Platforms" none (buildPlatformNodes platformIds) [])

/-- `enum cliStatus` from lib/clInfo.h. -/
inductive cliStatus where
  | CLI_Success
  | CLI_Error
deriving DecidableEq

/-- `struct cliInfo`: the document, holding the root pointer (the arena pool
holds no observable state of its own). -/
structure cliInfo where
  root : Option cliNode

/-- `cliInfo_Create` (lines 980-989): a null output pointer yields
`CLI_Error` and no document; otherwise a fresh empty document is written
through the pointer.  The out-pointer is modelled by its null-ness, the
written document by the second component. -/
def cliInfo_Create (infoPtrNonNull : Bool) : cliStatus × Option cliInfo :=
  if !infoPtrNonNull then (.CLI_Error, none)
  else (.CLI_Success, some { root := none })

/-- `cliInfo_Gather` (lines 992-1005): an already-set root yields
`CLI_Error` with the document untouched; otherwise the document's root is
assigned the result of `GatherOpenCLInfo`, with any exception escaping it
(arena `std::bad_alloc`) caught and turned into `CLI_Error`.  The
`gatherOutcome` parameter carries either the returned root pointer or the
thrown exception. -/
def cliInfo_Gather (info : cliInfo)
    (gatherOutcome : Except Unit (Option cliNode)) : cliStatus × cliInfo :=
  match info.root with
  | some _ => (.CLI_Error, info)
  | none =>
    match gatherOutcome with
    | .error _ => (.CLI_Error, info)
    | .ok r => (.CLI_Success, { root := r })

/-- `cliInfo_GetRoot` (lines 1008-1025): null info pointer, null root, or
null out-pointer each yield `CLI_Error` without writing; otherwise the root
is written through the out-pointer and `CLI_Success` returned.  The info
pointer is modelled as `Option cliInfo`, the out-pointer by its null-ness,
and the write through it by the second component. -/
def cliInfo_GetRoot (info : Option cliInfo) (rootPtrNonNull : Bool) :
    cliStatus × Option cliNode :=
  match info with
  | none => (.CLI_Error, none)
  | some i =>
    match i.root with
    | none => (.CLI_Error, none)
    | some r =>
      if !rootPtrNonNull then (.CLI_Error, none)
      else (.CLI_Success, some r)

/-! ## The JSON serializer (cli main, JsonPrinter, lines 98-177)

`JsonPrinter::OnNode` / `OnProperty` emit strings to an `ostream`; the
embedding concatenates the same pieces in the same order.  Literal brace
characters inside string literals are written with `\x7b` / `\x7d`
escapes. -/

/-- One value as `JsonPrinter` prints it, switching on the owning property's
type tag: booleans as `true`/`false`, integers in decimal, strings quoted.
Reading a union member under a mismatched tag is undefined behavior in the
source and is mapped to the empty string; no theorem depends on that case. -/
def jsonValue (t : cliPropertyType) (v : cliValue) : String :=
  match t, v with
  | .CLI_PropertyType_Bool, .b true => "true"
  | .CLI_PropertyType_Bool, .b false => "false"
  | .CLI_PropertyType_Int64, .i n => toString n
  | .CLI_PropertyType_String, .s str => "\"" ++ str ++ "\""
  | _, _ => ""

/-- Comma-joining of the printed pieces: each C loop appends `","` after an
element exactly when its `next` pointer is set. -/
def commaJoin : List String → String
  | [] => ""
  | [x] => x
  | x :: y :: rest => x ++ "," ++ commaJoin (y :: rest)

/-- `JsonPrinter::OnProperty`: `singleValue` holds when the value chain has
exactly one entry (`p->value && p->value->next == nullptr`); a single value
is emitted bare after `"name" = `, anything else inside `[` ... `]`. -/
def jsonProperty (p : cliProperty) : String :=
  let singleValue : Bool := match p.value with | [_] => true | _ => false
  (if !singleValue then "\"" ++ p.name ++ "\" = [" else "\"" ++ p.name ++ "\" = ")
    ++ commaJoin (p.value.map (jsonValue p.type))
    ++ (if !singleValue then "]" else "")

mutual

/-- `JsonPrinter::OnNode`: the node's name keyed at the top, a
`"Properties"` member holding the comma-joined properties (or an empty
object when the node has none), and a `"Children"` member holding the
comma-joined child nodes (or an empty object when there are none).  The
`kind` field is not printed by `JsonPrinter`. -/
def jsonNode : cliNode → String
  | .mk name _kind firstChild firstProperty =>
    "\x7b \"" ++ name ++ "\" : \x7b" ++ "\"Properties\" : " ++
      (match firstProperty with
       | [] => "\x7b\x7d"
       | p :: ps => commaJoin ((p :: ps).map jsonProperty)) ++
      ", \"Children\" : " ++
      (match firstChild with
       | [] => "\x7b\x7d"
       | c :: cs => jsonNodes (c :: cs)) ++
      "\x7d"

/-- The child loop of `JsonPrinter::OnNode`, comma-joined. -/
def jsonNodes : List cliNode → String
  | [] => ""
  | [c] => jsonNode c
  | c :: c2 :: cs => jsonNode c ++ "," ++ jsonNodes (c2 :: cs)

end

/-! ## Helper lemmas -/

/-- Unfolding equation for `CreateCharList` on a non-empty buffer. -/
theorem CreateCharList_cons (c : Char) (cs : List Char) :
    CreateCharList (c :: cs) =
      (c :: cs).takeWhile (fun x => x ≠ ' ') ::
        (if (c :: cs).dropWhile (fun x => x ≠ ' ') = [] then []
         else CreateCharList (((c :: cs).dropWhile (fun x => x ≠ ' ')).tail.dropWhile
            (fun x => x = ' '))) := by
  simp only [CreateCharList]

/-- Unfolding equation for `spaceTokens` on a non-empty buffer. -/
theorem spaceTokens_cons (c : Char) (cs : List Char) :
    spaceTokens (c :: cs) =
      if c = ' ' then spaceTokens cs
      else (c :: cs.takeWhile (fun x => x ≠ ' ')) ::
        spaceTokens (cs.dropWhile (fun x => x ≠ ' ')) := by
  simp only [spaceTokens]

/-- The first character surviving `dropWhile (· ≠ ' ')` is a space. -/
theorem head_dropWhile_not_space (l : List Char) (sp : Char) (rest : List Char)
    (h : l.dropWhile (fun x => x ≠ ' ') = sp :: rest) : sp = ' ' := by
  induction l with
  | nil => simp [List.dropWhile] at h
  | cons c cs ih =>
      rw [List.dropWhile_cons] at h
      by_cases hc : c = ' '
      · rw [if_neg (by simp [hc])] at h
        rw [← hc]
        exact (List.cons.injEq _ _ _ _ ▸ h).1.symm
      · rw [if_pos (by simp [hc])] at h
        exact ih h

/-- The first character surviving `dropWhile (· = ' ')` is not a space. -/
theorem head_dropWhile_space_ne (l : List Char) :
    ¬ (l.dropWhile (fun x => x = ' ')).head? = some ' ' := by
  induction l with
  | nil => simp [List.dropWhile]
  | cons c cs ih =>
      rw [List.dropWhile_cons]
      by_cases hc : c = ' '
      · rw [if_pos (by simp [hc])]
        exact ih
      · rw [if_neg (by simp [hc])]
        simp [hc]

/-- Dropping leading spaces does not change the non-empty tokens. -/
theorem spaceTokens_dropWhile_space (l : List Char) :
    spaceTokens (l.dropWhile (fun x => x = ' ')) = spaceTokens l := by
  induction l with
  | nil => simp
  | cons c cs ih =>
      rw [List.dropWhile_cons]
      by_cases hc : c = ' '
      · rw [if_pos (by simp [hc]), ih, spaceTokens_cons, if_pos hc]
      · rw [if_neg (by simp [hc])]

/-- Full characterization of the source tokenizer against the spec-side
tokenization: `CreateCharList` produces exactly the non-empty space-separated
tokens, except that a buffer beginning with a space contributes one extra
leading empty token. -/
theorem CreateCharList_eq_spec (l : List Char) :
    CreateCharList l =
      (if l.head? = some ' ' then [([] : List Char)] else []) ++ spaceTokens l := by
  induction l using CreateCharList.induct with
  | case1 => simp [CreateCharList, spaceTokens]
  | case2 c cs r ih =>
      rw [CreateCharList_cons, spaceTokens_cons]
      by_cases hc : c = ' '
      · subst hc
        have hdw : (' ' :: cs).dropWhile (fun x => x ≠ ' ') = ' ' :: cs := by
          rw [List.dropWhile_cons, if_neg (by simp)]
        have htw : (' ' :: cs).takeWhile (fun x => x ≠ ' ') = [] := by
          rw [List.takeWhile_cons, if_neg (by simp)]
        have hr : r = ' ' :: cs := hdw
        rw [hr] at ih
        simp only [List.tail_cons] at ih
        rw [spaceTokens_dropWhile_space] at ih
        rw [if_neg (head_dropWhile_space_ne cs)] at ih
        simp only [List.nil_append] at ih
        rw [htw, hdw, if_neg (List.cons_ne_nil _ _)]
        simp only [List.tail_cons]
        rw [ih]
        simp
      · have hdw : (c :: cs).dropWhile (fun x => x ≠ ' ') =
            cs.dropWhile (fun x => x ≠ ' ') := by
          rw [List.dropWhile_cons, if_pos (by simp [hc])]
        have htw : (c :: cs).takeWhile (fun x => x ≠ ' ') =
            c :: cs.takeWhile (fun x => x ≠ ' ') := by
          rw [List.takeWhile_cons, if_pos (by simp [hc])]
        by_cases hnil : cs.dropWhile (fun x => x ≠ ' ') = []
        · rw [htw, hdw, if_pos hnil, if_neg hc, hnil]
          simp [spaceTokens, hc]
        · obtain ⟨sp, rest, hsp⟩ := List.exists_cons_of_ne_nil hnil
          have hspace : sp = ' ' := head_dropWhile_not_space cs sp rest hsp
          subst hspace
          have hr : r = ' ' :: rest := by
            show (c :: cs).dropWhile (fun x => x ≠ ' ') = ' ' :: rest
            rw [hdw, hsp]
          rw [hr] at ih
          simp only [List.tail_cons] at ih
          rw [spaceTokens_dropWhile_space] at ih
          rw [if_neg (head_dropWhile_space_ne rest)] at ih
          simp only [List.nil_append] at ih
          rw [htw, hdw, if_neg hnil, hsp]
          simp only [List.tail_cons]
          rw [ih, if_neg hc, spaceTokens_cons, if_pos rfl]
          simp [hc]

/-- `Version::operator<` holds exactly on lexicographic (major, minor). -/
theorem ltB_iff (a b : Version) :
    a.ltB b = true ↔ (a.major < b.major ∨ (a.major = b.major ∧ a.minor < b.minor)) := by
  obtain ⟨a1, a2⟩ := a; obtain ⟨b1, b2⟩ := b
  by_cases h : a1 = b1 <;> simp [Version.ltB, h]

/-- `Version::operator<=` holds exactly on reflexive lexicographic order. -/
theorem leB_iff (a b : Version) :
    a.leB b = true ↔ (a.major < b.major ∨ (a.major = b.major ∧ a.minor ≤ b.minor)) := by
  obtain ⟨a1, a2⟩ := a; obtain ⟨b1, b2⟩ := b
  by_cases h : a1 = b1 <;> simp [Version.leB, h]

/-- `Version::operator>=` holds exactly on the reversed reflexive order. -/
theorem geB_iff (a b : Version) :
    a.geB b = true ↔ (a.major > b.major ∨ (a.major = b.major ∧ a.minor ≥ b.minor)) := by
  obtain ⟨a1, a2⟩ := a; obtain ⟨b1, b2⟩ := b
  by_cases h : a1 = b1 <;> simp [Version.geB, h]

/-- `Version::operator>` holds exactly on the reversed strict order. -/
theorem gtB_iff (a b : Version) :
    a.gtB b = true ↔ (a.major > b.major ∨ (a.major = b.major ∧ a.minor > b.minor)) := by
  obtain ⟨a1, a2⟩ := a; obtain ⟨b1, b2⟩ := b
  by_cases h : a1 = b1 <;> simp [Version.gtB, h]

/-- `Version::operator==` agrees with structural equality. -/
theorem eqB_iff (a b : Version) : a.eqB b = true ↔ a = b := by
  obtain ⟨a1, a2⟩ := a; obtain ⟨b1, b2⟩ := b
  simp [Version.eqB, Version.mk.injEq]

/-- `Version::operator!=` is the negation of structural equality. -/
theorem neB_iff (a b : Version) : a.neB b = true ↔ ¬ a = b := by
  obtain ⟨a1, a2⟩ := a; obtain ⟨b1, b2⟩ := b
  simp [Version.neB, Version.mk.injEq]
  tauto

/-! ## Claim theorems -/

/-- Claim C1, counterexample.  The claim states that the device table
selection is the union of all version-gated tables with version at most the
device's version, so that an attribute introduced at version V appears for
every device of version at least V — in particular that a (1,2) device gets
the 1.1-gated table.  This is false on the code: `CL_DEVICE_HOST_UNIFIED_MEMORY`
is introduced by the 1.1 diff table, (1,1) is at most (1,2), yet neither it
nor `CL_DEVICE_MIN_DATA_TYPE_ALIGN_SIZE` is in the attribute set fetched
for a device reporting version (1,2). -/
theorem C1_counterexample :
    "CL_DEVICE_HOST_UNIFIED_MEMORY" ∈ infos_CL_1_1 ∧
    Version.leB ⟨1, 1⟩ ⟨1, 2⟩ = true ∧
    "CL_DEVICE_HOST_UNIFIED_MEMORY" ∈ fetchOrder ⟨1, 1⟩ ∧
    "CL_DEVICE_HOST_UNIFIED_MEMORY" ∉ fetchOrder ⟨1, 2⟩ ∧
    "CL_DEVICE_MIN_DATA_TYPE_ALIGN_SIZE" ∉ fetchOrder ⟨1, 2⟩ := by
  refine ⟨by decide, by decide, ?_, ?_, ?_⟩
  · exact (mem_sortByName _ _).mpr (by decide)
  · intro h
    exact absurd ((mem_sortByName _ _).mp h) (by decide)
  · intro h
    exact absurd ((mem_sortByName _ _).mp h) (by decide)

/-- Claim C1, as amended.  `GatherDeviceInfo` selects the baseline
(`infos_CL_shared`) table plus exactly one version-specific diff table
chosen by exact match on the parsed version — the 1.0 diff for (1,0), the
1.1 diff for (1,1), the 1.2 diff for (1,2), and for versions >= (2,0) the
1.2 diff followed by the 2.0 table — and then sorts the result by attribute
name (sorting preserves membership).  In particular a device reporting
(1,2) gets baseline + 1.2 diff only: an attribute appearing only in the 1.1
diff, such as `CL_DEVICE_HOST_UNIFIED_MEMORY`, is fetched for a (1,1)
device but not for a (1,2) device. -/
theorem C1_table_selection :
    ∀ (v : Version) (a : String),
      propertiesToFetch ⟨1, 0⟩ = infos_CL_shared ++ infos_CL_1_0 ∧
      propertiesToFetch ⟨1, 1⟩ = infos_CL_shared ++ infos_CL_1_1 ∧
      propertiesToFetch ⟨1, 2⟩ = infos_CL_shared ++ infos_CL_1_2 ∧
      (v.geB ⟨2, 0⟩ = true →
        propertiesToFetch v = infos_CL_shared ++ (infos_CL_1_2 ++ infos_CL_2_0)) ∧
      (a ∈ fetchOrder v ↔ a ∈ propertiesToFetch v) ∧
      "CL_DEVICE_HOST_UNIFIED_MEMORY" ∈ fetchOrder ⟨1, 1⟩ ∧
      "CL_DEVICE_HOST_UNIFIED_MEMORY" ∉ fetchOrder ⟨1, 2⟩ := by
  intro v a
  refine ⟨rfl, rfl, rfl, ?_, mem_sortByName a _, (mem_sortByName _ _).mpr (by decide),
    fun h => absurd ((mem_sortByName _ _).mp h) (by decide)⟩
  intro hge
  obtain ⟨m, n⟩ := v
  have hm : m ≥ 2 := by
    by_cases h : m = 2 <;> simp [Version.geB, h] at hge <;> omega
  have h10 : Version.eqB ⟨m, n⟩ ⟨1, 0⟩ = false := by
    simp [Version.eqB]
    omega
  have h11 : Version.eqB ⟨m, n⟩ ⟨1, 1⟩ = false := by
    simp [Version.eqB]
    omega
  have h12 : Version.eqB ⟨m, n⟩ ⟨1, 2⟩ = false := by
    simp [Version.eqB]
    omega
  simp [propertiesToFetch, h10, h11, h12, hge]

/-- Witness for C1: the (2,0) arm of the selection, with the `>= (2,0)`
hypothesis discharged at the concrete version (2,0). -/
theorem C1_witness :
    propertiesToFetch ⟨2, 0⟩ = infos_CL_shared ++ (infos_CL_1_2 ++ infos_CL_2_0) :=
  (C1_table_selection ⟨2, 0⟩ "").2.2.2.1 (by decide)

/-- Claim C2, counterexample.  The claim says the decoder returns one value
per non-empty token for every NUL-terminated buffer.  On the buffer " A"
(leading space) the decoder produces an initial empty token in addition to
"A", while the non-empty tokens are just ["A"]. -/
theorem C2_counterexample :
    CreateCharList [' ', 'A'] = [[], ['A']] ∧
    spaceTokens [' ', 'A'] = [['A']] ∧
    CreateCharList [' ', 'A'] ≠ spaceTokens [' ', 'A'] := by
  have h1 : CreateCharList [' ', 'A'] = [[], ['A']] := by
    simp [CreateCharList, List.dropWhile, List.takeWhile]
  have h2 : spaceTokens [' ', 'A'] = [['A']] := by
    simp [spaceTokens, List.dropWhile, List.takeWhile]
  refine ⟨h1, h2, ?_⟩
  rw [h1, h2]
  simp

/-- Claim C2, as amended.  `CreateCharList` tokenizes on the single ASCII
space, collapsing consecutive delimiters between tokens, and returns one
value per non-empty token in left-to-right order — except that a buffer
whose first character is a space additionally yields one leading
empty-string value.  The claim's three examples hold as stated:
"A B  C" (double space) decodes to ["A","B","C"], "" to the null list, and
"onlyone" to ["onlyone"]. -/
theorem C2_charlist :
    (∀ l : List Char, CreateCharList l =
      (if l.head? = some ' ' then [([] : List Char)] else []) ++ spaceTokens l) ∧
    CreateCharList ['A', ' ', 'B', ' ', ' ', 'C'] = [['A'], ['B'], ['C']] ∧
    CreateCharList [] = [] ∧
    CreateCharList ['o', 'n', 'l', 'y', 'o', 'n', 'e'] =
      [['o', 'n', 'l', 'y', 'o', 'n', 'e']] := by
  refine ⟨CreateCharList_eq_spec, ?_, by simp [CreateCharList], ?_⟩
  · simp [CreateCharList, List.dropWhile, List.takeWhile]
  · simp [CreateCharList, List.dropWhile, List.takeWhile]

/-- Claim C3: `CreateBitfield` emits exactly one string value per table
entry whose bit-pattern is fully set in the mask
(`(mask & pattern) == pattern`), in table declaration order and no others;
unmatched bits are ignored and zero matches yields the null (empty) value
list.  This is the filter/map characterization, plus the spec's example
mask 0b011 over [(0b001,"A"), (0b010,"B"), (0b100,"C")] and a zero-match
example. -/
theorem C3_bitfield :
    (∀ (config : Nat) (fields : List BitfieldFetcher),
      CreateBitfield config fields =
        (fields.filter fun f => config &&& f.value == f.value).map (fun f => f.n)) ∧
    CreateBitfield 3 [⟨1, "A"⟩, ⟨2, "B"⟩, ⟨4, "C"⟩] = ["A", "B"] ∧
    CreateBitfield 8 [⟨1, "A"⟩, ⟨2, "B"⟩, ⟨4, "C"⟩] = [] := by
  refine ⟨fun config fields => ?_, by decide, by decide⟩
  induction fields with
  | nil => rfl
  | cons f fs ih =>
      by_cases h : config &&& f.value == f.value <;>
        simp [CreateBitfield, h, ih, List.filter]

/-- Claim C4, counterexample.  The claim says an external query failure
makes the whole fetch fail and propagate up, aborting gathering for that
object.  On the code, a failing size query makes `GetValue` return the null
value list — exactly what a reported size of 0 produces — and
`GetProperties` stores it as an ordinary empty property and continues with
the remaining table entries: below, the first entry's query fails with
status -5 yet both properties are built, the second fetched successfully.
Nothing is propagated to the caller. -/
theorem C4_counterexample :
    GetValue ⟨.error (-5), fun _ => .error (-5)⟩ (fun _ _ => [.i 7]) = [] ∧
    GetValue ⟨.success 0, fun _ => .success []⟩ (fun _ _ => [.i 7]) = [] ∧
    (GetProperties
        (fun i => if i = 0 then ⟨.error (-5), fun _ => .error (-5)⟩
                  else ⟨.success 4, fun _ => .success [7]⟩)
        (.mk "Device" none [] [])
        [⟨0, "CL_DEVICE_VENDOR_ID", (fun _ _ => [.i 7]), .CLI_PropertyType_Int64, none⟩,
         ⟨1, "CL_DEVICE_ADDRESS_BITS", (fun _ _ => [.i 7]), .CLI_PropertyType_Int64,
          none⟩]).firstProperty
      = [⟨[], "CL_DEVICE_VENDOR_ID", none, .CLI_PropertyType_Int64⟩,
         ⟨[.i 7], "CL_DEVICE_ADDRESS_BITS", none, .CLI_PropertyType_Int64⟩] := by
  refine ⟨rfl, rfl, ?_⟩
  rfl

/-- Claim C4, as amended.  A reported size of 0 makes the fetch return the
null value list (a valid empty attribute); a failing external query call
makes `GetValue` print a diagnostic and return the same null value list —
the failure is swallowed, indistinguishable from a valid empty attribute,
and `GetProperties` appends a property for every table entry regardless,
never aborting. -/
theorem C4_fetch_failure :
    ∀ (dq : Nat → CLResult (List Nat)) (cf : List Nat → Nat → List cliValue)
      (c : Int) (f : Nat → QueryBehavior) (node : cliNode)
      (container : List PropertyFetcher),
      GetValue ⟨.error c, dq⟩ cf = [] ∧
      GetValue ⟨.success 0, dq⟩ cf = [] ∧
      GetValue ⟨.error c, dq⟩ cf = GetValue ⟨.success 0, dq⟩ cf ∧
      (GetProperties f node container).firstProperty =
        node.firstProperty ++ container.map (fetchProperty f) := by
  intro dq cf c f node container
  exact ⟨rfl, rfl, rfl, GetProperties_firstProperty f node container⟩

/-- Claim C5, counterexample.  The claim says zero discovered platforms
makes the gather operation report an error.  On the code,
`GatherOpenCLInfo` returns a null root (no exception), and `cliInfo_Gather`
stores that null root and returns `CLI_Success`. -/
theorem C5_counterexample :
    GatherOpenCLInfo (.success 0) (fun _ => .error 0) (fun _ => []) = none ∧
    cliInfo_Gather { root := none }
        (.ok (GatherOpenCLInfo (.success 0) (fun _ => .error 0) (fun _ => []))) =
      (.CLI_Success, { root := none }) ∧
    (cliInfo_Gather { root := none }
        (.ok (GatherOpenCLInfo (.success 0) (fun _ => .error 0) (fun _ => [])))).1 ≠
      .CLI_Error := by
  refine ⟨rfl, rfl, ?_⟩
  intro h
  simp [cliInfo_Gather, GatherOpenCLInfo] at h

/-- Claim C5, as amended.  When platform enumeration reports zero platforms
(or the count query itself fails), `GatherOpenCLInfo` produces no tree (a
null root, after printing a diagnostic), so the document is left with no
usable root and `cliInfo_GetRoot` subsequently fails with `CLI_Error` — but
`cliInfo_Gather` itself returns `CLI_Success`, because failure is signalled
by the null root rather than by an exception. -/
theorem C5_zero_platforms :
    ∀ (idsCall : Nat → CLResult (List Nat)) (bp : List Nat → List cliNode) (c : Int),
      GatherOpenCLInfo (.success 0) idsCall bp = none ∧
      GatherOpenCLInfo (.error c) idsCall bp = none ∧
      cliInfo_Gather { root := none } (.ok none) = (.CLI_Success, { root := none }) ∧
      cliInfo_GetRoot (some { root := none }) true = (.CLI_Error, none) := by
  intro idsCall bp c
  exact ⟨rfl, rfl, rfl, rfl⟩

/-- Claim C6: every `GetProperties` call appends its newly constructed
properties at the tail of the node's existing property list (leaving name,
kind and children untouched and every existing property unchanged), and
successive calls against the same node accumulate in exactly the order the
table entries were supplied across the calls — two consecutive calls equal
one call on the concatenated table. -/
theorem C6_properties_accumulate :
    ∀ (f : Nat → QueryBehavior) (node : cliNode) (t1 t2 : List PropertyFetcher),
      (GetProperties f node t1).firstProperty =
        node.firstProperty ++ t1.map (fetchProperty f) ∧
      (GetProperties f node t1).name = node.name ∧
      (GetProperties f node t1).kind = node.kind ∧
      (GetProperties f node t1).firstChild = node.firstChild ∧
      GetProperties f (GetProperties f node t1) t2 = GetProperties f node (t1 ++ t2) := by
  intro f node t1 t2
  obtain ⟨name, kind, firstChild, firstProperty⟩ := node
  refine ⟨GetProperties_firstProperty _ _ _, rfl, rfl, rfl, ?_⟩
  simp [GetProperties, foldl_append_eq_map, cliNode.firstProperty]

/-- Claim C7: the `Version` relational operators realize the lexicographic
(major, then minor) order, are mutually consistent across all six
operators, and `<=` is a total order (total, antisymmetric, transitive);
the spec's three concrete instances hold. -/
theorem C7_version_order :
    ∀ a b c : Version,
      (a.ltB b = true ↔ (a.major < b.major ∨ (a.major = b.major ∧ a.minor < b.minor))) ∧
      (a.eqB b = true ↔ a = b) ∧
      (a.neB b = true ↔ ¬ a = b) ∧
      (a.leB b = true ↔ (a.ltB b = true ∨ a.eqB b = true)) ∧
      (a.geB b = true ↔ b.leB a = true) ∧
      (a.gtB b = true ↔ b.ltB a = true) ∧
      (a.leB b = true ∨ b.leB a = true) ∧
      ((a.leB b = true ∧ b.leB a = true) ↔ a = b) ∧
      (a.leB b = true → b.leB c = true → a.leB c = true) ∧
      Version.ltB ⟨1, 2⟩ ⟨2, 0⟩ = true ∧
      Version.ltB ⟨1, 1⟩ ⟨1, 2⟩ = true ∧
      Version.geB ⟨2, 0⟩ ⟨2, 0⟩ = true := by
  intro a b c
  refine ⟨ltB_iff a b, eqB_iff a b, neB_iff a b, ?_, ?_, ?_, ?_, ?_, ?_,
    by decide, by decide, by decide⟩ <;>
    obtain ⟨a1, a2⟩ := a <;> obtain ⟨b1, b2⟩ := b <;> obtain ⟨c1, c2⟩ := c <;>
    simp only [ltB_iff, leB_iff, geB_iff, gtB_iff, eqB_iff, Version.mk.injEq] <;>
    omega

/-- Witness for C7: the transitivity component applied at the concrete
versions (1,1) <= (1,2) <= (2,0). -/
theorem C7_witness : Version.leB ⟨1, 1⟩ ⟨2, 0⟩ = true :=
  (C7_version_order ⟨1, 1⟩ ⟨1, 2⟩ ⟨2, 0⟩).2.2.2.2.2.2.2.2.1 (by decide) (by decide)

/-- Claim C8: a second `cliInfo_Gather` call on a document whose root was
set by a successful previous gather returns `CLI_Error` and leaves the
populated document unchanged, whatever the second gather would have
produced. -/
theorem C8_single_gather :
    ∀ (info : cliInfo) (g g2 : Except Unit (Option cliNode)) (info2 : cliInfo),
      cliInfo_Gather info g = (.CLI_Success, info2) → info2.root.isSome = true →
      cliInfo_Gather info2 g2 = (.CLI_Error, info2) := by
  intro info g g2 info2 _ h
  obtain ⟨r⟩ := info2
  cases r with
  | none => simp at h
  | some node => simp [cliInfo_Gather]

/-- Witness for C8: a first gather on a fresh document succeeds and sets a
root; the second gather on the resulting document then errors and leaves it
unchanged. -/
theorem C8_witness :
    cliInfo_Gather { root := some (.mk "Platforms" none [] []) } (.ok none) =
      (.CLI_Error, { root := some (.mk "Platforms" none [] []) }) :=
  C8_single_gather { root := none } (.ok (some (.mk "Platforms" none [] [])))
    (.ok none) { root := some (.mk "Platforms" none [] []) } rfl rfl

/-- Claim C9: in `JsonPrinter`, a property holding exactly one value is
serialized as a bare scalar (not wrapped in an array); a property holding
two or more values is serialized as an array with one element per value in
declaration order; and a node with zero properties serializes its
Properties member as the empty object, whether or not it has children. -/
theorem C9_json :
    ∀ (name : String) (hint : Option String) (t : cliPropertyType)
      (v v2 : cliValue) (vs : List cliValue) (kind : Option String)
      (c : cliNode) (cs : List cliNode),
      jsonProperty { value := [v], name := name, hint := hint, type := t } =
        "\"" ++ name ++ "\" = " ++ jsonValue t v ∧
      jsonProperty { value := v :: v2 :: vs, name := name, hint := hint, type := t } =
        "\"" ++ name ++ "\" = [" ++
          commaJoin ((v :: v2 :: vs).map (jsonValue t)) ++ "]" ∧
      ((v :: v2 :: vs).map (jsonValue t)).length = vs.length + 2 ∧
      jsonNode (.mk name kind [] []) =
        "\x7b \"" ++ name ++ "\" : \x7b" ++ "\"Properties\" : " ++ "\x7b\x7d" ++
          ", \"Children\" : " ++ "\x7b\x7d" ++ "\x7d" ∧
      jsonNode (.mk name kind (c :: cs) []) =
        "\x7b \"" ++ name ++ "\" : \x7b" ++ "\"Properties\" : " ++ "\x7b\x7d" ++
          ", \"Children\" : " ++ jsonNodes (c :: cs) ++ "\x7d" := by
  intro name hint t v v2 vs kind c cs
  refine ⟨?_, ?_, by simp, ?_, ?_⟩
  · simp [jsonProperty, commaJoin]
  · simp [jsonProperty]
  · simp [jsonNode]
  · simp [jsonNode]

/-- Claim C10: `cliInfo_Create` with a null output pointer returns
`CLI_Error` without creating a document (and otherwise creates an empty
one); `cliInfo_GetRoot` returns `CLI_Error` without writing through its
output pointer whenever the info pointer is null, the root is unpopulated,
or the output pointer is null, and returns `CLI_Success` with the root
exactly when the document has a populated root and the output pointer is
valid. -/
theorem C10_api_guards :
    ∀ (b : Bool) (i : cliInfo) (r : cliNode),
      cliInfo_Create false = (.CLI_Error, none) ∧
      cliInfo_Create true = (.CLI_Success, some { root := none }) ∧
      cliInfo_GetRoot none b = (.CLI_Error, none) ∧
      cliInfo_GetRoot (some { root := none }) b = (.CLI_Error, none) ∧
      cliInfo_GetRoot (some i) false = (.CLI_Error, none) ∧
      cliInfo_GetRoot (some { root := some r }) true = (.CLI_Success, some r) ∧
      ((cliInfo_GetRoot (some i) b).1 = .CLI_Success ↔
        (b = true ∧ ∃ r2, i.root = some r2)) := by
  intro b i r
  obtain ⟨root⟩ := i
  refine ⟨rfl, rfl, rfl, rfl, ?_, rfl, ?_⟩
  · cases root <;> rfl
  · cases root <;> cases b <;> simp [cliInfo_GetRoot]

end OpenCLInfo
